import Mathlib

/-!
Verification of the agreement normalization, derived-field computation and
conflict-detection pipeline of the medtech distributor dashboard.

The JavaScript sources contain two near-identical service classes:
`NavigatorAPIServicePKCE` (file `navigator-api-service-pkce.js`) and
`NavigatorAPIServiceImplicit` (the two unnamed implicit-grant variants).  The
two implicit-grant files agree on the functions modelled here except inside
`getAllAgreements`'s successful branch, where the earlier file lacks the
`items` wrapper fallback and the per-record detail fetch; the embedding
follows the later file, and the fetch-failure fallback path — the part the
claims touch — is identical in both.  Both classes are embedded below;
functions that are textually identical in the two classes are defined once at
top level.

Modelling conventions:
* JavaScript values are modelled by the inductive type `JSValue`
  (undefined, null, booleans, numbers, strings, arrays, objects).
  Numbers are modelled as rationals: the exact rational of a decimal literal
  stands in for the nearest IEEE double, and NaN and the infinities are
  outside the model (a parse that would produce NaN is modelled as a
  `none`).
* `JSON.parse` is modelled by `jsonParse`, a recursive-descent parser for the
  JSON grammar (strings with escapes, strict number syntax, arrays, objects).
* Dates are modelled by their epoch-millisecond count (an integer).  The civil
  (proleptic Gregorian, UTC) calendar correspondence is given by
  `daysFromCivil` and `civilFromDays`, proved mutually inverse below.  The
  host date parser is modelled for the ISO `YYYY-MM-DD` forms the repository
  uses; other textual formats are modelled as unparseable (Invalid Date), and
  `getFullYear`-style local-time accessors are modelled as UTC.
* Code that can throw is embedded with `Except String`; a thrown `TypeError`
  or `RangeError` becomes an `Except.error`.
-/

/-- Model of a JavaScript runtime value.  `undef` is `undefined`; object
fields are kept in insertion order. -/
inductive JSValue where
  | undef
  | null
  | bool (b : Bool)
  | num (q : ℚ)
  | str (s : String)
  | arr (xs : List JSValue)
  | obj (fields : List (String × JSValue))

/-- Model of JavaScript strict equality `===` (and of `Array.includes`
element comparison).  Primitive values compare structurally; two array or
object operands compare as distinct references, hence `false` — in the code
under study only strings and numbers are ever compared. -/
def jsEq : JSValue → JSValue → Bool
  | .undef, .undef => true
  | .null, .null => true
  | .bool a, .bool b => a == b
  | .num a, .num b => a == b
  | .str a, .str b => a == b
  | _, _ => false

/-- JavaScript truthiness: `undefined`, `null`, `false`, `0` and `""` are
falsy, everything else (including every array and object) is truthy. -/
def jsTruthy : JSValue → Bool
  | .undef => false
  | .null => false
  | .bool b => b
  | .num q => q != 0
  | .str s => s != ""
  | .arr _ => true
  | .obj _ => true

/-- Model of the JavaScript `a || b` fallback idiom. -/
def jsOr (a b : JSValue) : JSValue := if jsTruthy a then a else b

/-- Property access `v.k` on a value that is not `null`/`undefined`: objects
yield the last binding for the key (JSON semantics for duplicate keys),
everything else yields `undefined`.  Access on `null`/`undefined` throws in
JavaScript; the embedding guards those accesses explicitly at the call
sites. -/
def jsField (v : JSValue) (k : String) : JSValue :=
  match v with
  | .obj fs => (((fs.reverse).find? (fun p => p.1 == k)).map Prod.snd).getD .undef
  | _ => (.undef)

/-- True exactly on `null` and `undefined` (the values whose property access
throws). -/
def isNullish : JSValue → Bool
  | .null => true
  | .undef => true
  | _ => false

/-- Model of `Array.prototype.includes`. -/
def jsIncludes (xs : List JSValue) (v : JSValue) : Bool :=
  xs.any (fun u => jsEq u v)

/- ## String helpers -/

/-- Split a character list on any single delimiter character, keeping empty
segments, as the regexes `/[,;]/` and `/[,;|]/` do in `String.split`. -/
def splitAux (delims : List Char) : List Char → List Char → List String
  | [], acc => [String.mk acc.reverse]
  | c :: cs, acc =>
    if delims.contains c then String.mk acc.reverse :: splitAux delims cs []
    else splitAux delims cs (c :: acc)

def splitOnDelims (delims : List Char) (s : String) : List String :=
  splitAux delims s.data []

/-- The ECMAScript WhiteSpace ∪ LineTerminator set used by
`String.prototype.trim`, `parseFloat` and `parseInt`: tab, LF, VT, FF, CR,
space, NBSP, the Unicode space separators (OGHAM space, U+2000–U+200A,
narrow NBSP, medium mathematical space, ideographic space), the line and
paragraph separators, and the ZWNBSP/BOM. -/
def isJsWhitespace (c : Char) : Bool :=
  c = ' ' || c = '\t' || c = '\n' || c = '\r' ||
  c.toNat = 0x0B || c.toNat = 0x0C || c.toNat = 0xA0 || c.toNat = 0xFEFF ||
  c.toNat = 0x1680 || (0x2000 ≤ c.toNat && c.toNat ≤ 0x200A) ||
  c.toNat = 0x2028 || c.toNat = 0x2029 || c.toNat = 0x202F || c.toNat = 0x205F ||
  c.toNat = 0x3000

/-- Model of `String.prototype.trim`: strip leading and trailing ECMAScript
whitespace (including the non-ASCII whitespace code points). -/
def jsTrim (s : String) : String :=
  String.mk (((s.data.dropWhile isJsWhitespace).reverse.dropWhile
    isJsWhitespace).reverse)

/-- The `split(...).map(v => v.trim()).filter(Boolean)` pipeline shared by the
multi-value parsers. -/
def splitTokens (delims : List Char) (s : String) : List String :=
  ((splitOnDelims delims s).map jsTrim).filter (fun t => t ≠ "")

def digitsValNat (ds : List Char) : Nat :=
  ds.foldl (fun a c => a * 10 + (c.toNat - 48)) 0

def takeDigits : List Char → List Char × List Char
  | [] => ([], [])
  | c :: cs =>
    if c.isDigit then
      let p := takeDigits cs
      (c :: p.1, p.2)
    else ([], c :: cs)

/-- Decimal rendering of a natural number (structural, so that it reduces in
the kernel), little helper for `intToStr`. -/
def natToStrAux : Nat → Nat → List Char
  | 0, _ => []
  | _ + 1, 0 => []
  | fuel + 1, n + 1 => natToStrAux fuel ((n + 1) / 10) ++ [Char.ofNat (48 + (n + 1) % 10)]

def natToStr (n : Nat) : String :=
  if n = 0 then "0" else String.mk (natToStrAux n n)

def intToStr : Int → String
  | .ofNat n => natToStr n
  | .negSucc n => "-" ++ natToStr (n + 1)

/- ## JSON parser (model of `JSON.parse`) -/

/-- JSON insignificant whitespace. -/
def skipWs : List Char → List Char
  | c :: cs => if c = ' ' ∨ c = '\t' ∨ c = '\n' ∨ c = '\r' then skipWs cs else c :: cs
  | [] => []

def hexVal (c : Char) : Option Nat :=
  if c.isDigit then some (c.toNat - 48)
  else if 'a' ≤ c ∧ c ≤ 'f' then some (c.toNat - 87)
  else if 'A' ≤ c ∧ c ≤ 'F' then some (c.toNat - 55)
  else none

def escChar : Char → Option Char
  | '"' => some '"'
  | '\\' => some '\\'
  | '/' => some '/'
  | 'b' => some (Char.ofNat 8)
  | 'f' => some (Char.ofNat 12)
  | 'n' => some (Char.ofNat 10)
  | 'r' => some (Char.ofNat 13)
  | 't' => some (Char.ofNat 9)
  | _ => none

/-- Exponent part of a JSON number; an ill-formed exponent is left
unconsumed (which then fails at the structural level, as in `JSON.parse`). -/
def parseJsonExp (cs : List Char) : Int × List Char :=
  match cs with
  | 'e' :: r | 'E' :: r =>
    let p : Bool × List Char :=
      match r with
      | '+' :: t => (false, t)
      | '-' :: t => (true, t)
      | _ => (false, r)
    let ds := takeDigits p.2
    if ds.1.isEmpty then (0, cs)
    else (if p.1 then -(digitsValNat ds.1 : Int) else (digitsValNat ds.1 : Int), ds.2)
  | _ => (0, cs)

/-- A JSON number token: strict grammar (no leading `+`, no leading zeros,
digits required after a decimal point). -/
def parseJsonNum (cs : List Char) : Option (ℚ × List Char) :=
  let sp : Bool × List Char :=
    match cs with
    | '-' :: r => (true, r)
    | _ => (false, cs)
  match sp.2 with
  | [] => none
  | c :: _ =>
    if ¬ c.isDigit then none
    else
      let ip := takeDigits sp.2
      if 1 < ip.1.length ∧ ip.1.headD '0' = '0' then none
      else
        let fp : List Char × List Char :=
          match ip.2 with
          | '.' :: r =>
            let ds := takeDigits r
            if ds.1.isEmpty then ([], ip.2) else ds
          | _ => ([], ip.2)
        let ep := parseJsonExp fp.2
        let base : ℚ := (digitsValNat ip.1 : ℚ) + (digitsValNat fp.1 : ℚ) / (10 : ℚ) ^ fp.1.length
        let scaled : ℚ :=
          if 0 ≤ ep.1 then base * (10 : ℚ) ^ ep.1.toNat else base / (10 : ℚ) ^ (-ep.1).toNat
        some (if sp.1 then -scaled else scaled, ep.2)

/-- Parsing mode for the single fuelled JSON parser: a value, the tail of an
array, the tail of an object, or the body of a string literal. -/
inductive PMode where
  | val
  | elems
  | members
  | strBody

/-- Fuelled recursive-descent JSON parser.  The result of the `elems`
(`members`, `strBody`) mode is wrapped as an `arr` (`obj`, `str`). -/
def pAux : Nat → PMode → List Char → Option (JSValue × List Char)
  | 0, _, _ => none
  | fuel + 1, .val, cs =>
    match skipWs cs with
    | 'n' :: 'u' :: 'l' :: 'l' :: r => some (.null, r)
    | 't' :: 'r' :: 'u' :: 'e' :: r => some (.bool true, r)
    | 'f' :: 'a' :: 'l' :: 's' :: 'e' :: r => some (.bool false, r)
    | '"' :: r => pAux fuel .strBody r
    | '[' :: r =>
      (match skipWs r with
       | ']' :: r2 => some (.arr [], r2)
       | r2 => pAux fuel .elems r2)
    | '{' :: r =>
      (match skipWs r with
       | '}' :: r2 => some (.obj [], r2)
       | r2 => pAux fuel .members r2)
    | c :: r =>
      if c = '-' ∨ c.isDigit then
        match parseJsonNum (c :: r) with
        | some (q, r2) => some (.num q, r2)
        | none => none
      else none
    | [] => none
  | fuel + 1, .elems, cs =>
    match pAux fuel .val cs with
    | some (v, r) =>
      (match skipWs r with
       | ',' :: r2 =>
         (match pAux fuel .elems r2 with
          | some (.arr xs, r3) => some (.arr (v :: xs), r3)
          | _ => none)
       | ']' :: r2 => some (.arr [v], r2)
       | _ => none)
    | none => none
  | fuel + 1, .members, cs =>
    match skipWs cs with
    | '"' :: r =>
      (match pAux fuel .strBody r with
       | some (.str key, r1) =>
         (match skipWs r1 with
          | ':' :: r2 =>
            (match pAux fuel .val r2 with
             | some (v, r3) =>
               (match skipWs r3 with
                | ',' :: r4 =>
                  (match pAux fuel .members r4 with
                   | some (.obj ms, r5) => some (.obj ((key, v) :: ms), r5)
                   | _ => none)
                | '}' :: r4 => some (.obj [(key, v)], r4)
                | _ => none)
             | _ => none)
          | _ => none)
       | _ => none)
    | _ => none
  | fuel + 1, .strBody, cs =>
    match cs with
    | '"' :: r => some (.str "", r)
    | '\\' :: 'u' :: a :: b :: c :: d :: r =>
      (match hexVal a, hexVal b, hexVal c, hexVal d with
       | some ha, some hb, some hc, some hd =>
         (match pAux fuel .strBody r with
          | some (.str s, r2) =>
            some (.str (String.mk (Char.ofNat (((ha * 16 + hb) * 16 + hc) * 16 + hd) :: s.data)), r2)
          | _ => none)
       | _, _, _, _ => none)
    | '\\' :: e :: r =>
      (match escChar e with
       | some ce =>
         (match pAux fuel .strBody r with
          | some (.str s, r2) => some (.str (String.mk (ce :: s.data)), r2)
          | _ => none)
       | none => none)
    | c :: r =>
      if c.toNat < 32 then none
      else
        match pAux fuel .strBody r with
        | some (.str s, r2) => some (.str (String.mk (c :: s.data)), r2)
        | _ => none
    | [] => none

/-- Model of `JSON.parse`: parse one value, then require only whitespace to
remain; on any violation of the grammar the JavaScript exception is modelled
by `none`. -/
def jsonParse (s : String) : Option JSValue :=
  match pAux (2 * s.length + 8) .val s.data with
  | some (v, r) => if (skipWs r).isEmpty then some v else none
  | none => none

/- ## Number parsing -/

/-- Truncation toward zero of a rational, as JavaScript's internal
ToIntegerOrInfinity does. -/
def ratTrunc (q : ℚ) : Int :=
  if q < 0 then -((q.num.natAbs : Int) / (q.den : Int)) else q.num / (q.den : Int)

/-- Model of `parseFloat` on a string: skip leading (ECMAScript) whitespace,
optional sign, longest numeric prefix (digits, optional fraction, optional
valid exponent); no digits at all gives NaN, modelled as `none`.  The
`Infinity` literal, and exponents large enough to overflow a double to
Infinity, produce the infinite value that the ℚ-number convention places
outside the model (see the header), like NaN; the model keeps the exact
rational of the digits instead of the nearest double throughout. -/
def parseFloatChars (cs : List Char) : Option ℚ :=
  let cs1 := cs.dropWhile isJsWhitespace
  let sp : Bool × List Char :=
    match cs1 with
    | '-' :: r => (true, r)
    | '+' :: r => (false, r)
    | _ => (false, cs1)
  let ip := takeDigits sp.2
  let fp : List Char × List Char :=
    match ip.2 with
    | '.' :: r => takeDigits r
    | _ => ([], ip.2)
  if ip.1.isEmpty ∧ fp.1.isEmpty then none
  else
    let base : ℚ := (digitsValNat ip.1 : ℚ) + (digitsValNat fp.1 : ℚ) / (10 : ℚ) ^ fp.1.length
    let ep := parseJsonExp fp.2
    let scaled : ℚ :=
      if 0 ≤ ep.1 then base * (10 : ℚ) ^ ep.1.toNat else base / (10 : ℚ) ^ (-ep.1).toNat
    some (if sp.1 then -scaled else scaled)

/-- Model of `parseInt` (radix 10) on a string. -/
def parseIntChars (cs : List Char) : Option Int :=
  let cs1 := cs.dropWhile isJsWhitespace
  let sp : Bool × List Char :=
    match cs1 with
    | '-' :: r => (true, r)
    | '+' :: r => (false, r)
    | _ => (false, cs1)
  let ip := takeDigits sp.2
  if ip.1.isEmpty then none
  else some (if sp.1 then -(digitsValNat ip.1 : Int) else (digitsValNat ip.1 : Int))

/-- Multiplicity of the prime `p` in `n` (fuel-bounded so that it reduces in
the kernel); used to decide whether a rational has a finite decimal
expansion. -/
def pMultAux (p : Nat) : Nat → Nat → Nat
  | 0, _ => 0
  | fuel + 1, n => if 2 ≤ p ∧ n % p = 0 ∧ 0 < n then pMultAux p fuel (n / p) + 1 else 0

def pMult (p n : Nat) : Nat := pMultAux p n n

def padZeros (k : Nat) (s : String) : String :=
  String.mk (List.replicate (k - s.length) '0') ++ s

/-- The `ToString` of a number under the model's ℚ-for-Number convention:
integers render in plain decimal, and a rational with a finite decimal
expansion (denominator `2^a * 5^b` — every finite double is of this shape,
and the shortest round-trip rendering of a double whose value is an exact
decimal is that decimal) renders as its exact decimal without trailing
zeros.  The huge-magnitude exponent notation (`1e+21`, `1e-7`) is not
modelled: for `parseFloat` both renderings parse back to the same value.
The final branch — a denominator with another prime factor — is the value
of no IEEE double and so corresponds to no program input; it renders as a
fraction. -/
def ratToString (q : ℚ) : String :=
  if q.den = 1 then intToStr q.num
  else
    let n := q.num.natAbs
    let d := q.den
    let a := pMult 2 d
    let b := pMult 5 d
    let k := max a b
    if 2 ^ a * 5 ^ b = d then
      (if q.num < 0 then "-" else "") ++ natToStr (n * 10 ^ k / d / 10 ^ k) ++ "." ++
        padZeros k (natToStr (n * 10 ^ k / d % 10 ^ k))
    else
      intToStr q.num ++ "/" ++ natToStr d

/-- ECMAScript `ToString`: `undefined`, `null` and booleans render as their
keywords, numbers through the decimal rendering above, strings as
themselves, arrays as the comma-join of their elements (`Array.prototype`
`toString`/`join`, with `null`/`undefined` elements rendered as the empty
string and nested values rendered recursively), and plain objects as
`"[object Object]"`. -/
def jsToString : JSValue → String
  | .undef => "undefined"
  | .null => "null"
  | .bool b => if b then "true" else "false"
  | .num q => ratToString q
  | .str s => s
  | .arr xs =>
    String.intercalate ","
      (xs.attach.map (fun x =>
        match x with
        | ⟨.undef, _⟩ => ""
        | ⟨.null, _⟩ => ""
        | ⟨v, _⟩ => jsToString v))
  | .obj _ => "[object Object]"

/-- Model of `parseInt(value)` (radix 10): numbers truncate toward zero
(their rendering re-parses to the same integer part under the ℚ convention,
which does not model the exponent notation of extreme doubles), strings use
the digit-prefix rule directly, and every other shape — booleans, arrays,
objects — is first coerced through `ToString` exactly as `parseInt` does,
so e.g. an array's comma-join is what gets parsed. -/
def parseIntJS (v : JSValue) : Option Int :=
  match v with
  | .num q => some (ratTrunc q)
  | .str s => parseIntChars s.data
  | v => parseIntChars (jsToString v).data

/- ## Civil calendar model

`daysFromCivil y m d` is the number of days from 1970-01-01 to the civil
(proleptic Gregorian) date y-m-d; `civilFromDays` is its inverse.  The two
functions implement the standard March-based ("shifted year") day-count
formula; `daysFromCivil_civilFromDays` below proves them mutually inverse
for every integer day number, which is exactly the normalization property of
JavaScript's `Date.prototype.setDate` / `setFullYear`. -/

/-- Days from 0000-03-01 to the first of March of shifted year `yy` (floor
division, valid for every integer). -/
def marchDays (yy : Int) : Int := 365 * yy + yy / 4 - yy / 100 + yy / 400

def daysFromCivil (y m d : Int) : Int :=
  let yy := y - (if m ≤ 2 then 1 else 0)
  let mp := if m > 2 then m - 3 else m + 9
  marchDays yy + (153 * mp + 2) / 5 + d - 1 - 719468

def civilFromDays (g : Int) : Int × Int × Int :=
  let z := g + 719468
  let y0 := (400 * z + 591) / 146097
  let y1 := if z < marchDays y0 then y0 - 1
            else if marchDays (y0 + 1) ≤ z then y0 + 1 else y0
  let doy := z - marchDays y1
  let mp := (5 * doy + 2) / 153
  let d := doy - (153 * mp + 2) / 5 + 1
  let m := mp + (if mp < 10 then 3 else -9)
  (y1 + (if m ≤ 2 then 1 else 0), m, d)

theorem reconstructKey (z y1 : Int) (h0 : marchDays y1 ≤ z) (h1 : z < marchDays (y1 + 1)) :
    (let doy := z - marchDays y1
     let mp := (5 * doy + 2) / 153
     let d := doy - (153 * mp + 2) / 5 + 1
     let m := mp + (if mp < 10 then 3 else -9)
     daysFromCivil (y1 + (if m ≤ 2 then 1 else 0)) m d) = z - 719468 := by
  dsimp only
  have hdoy : 0 ≤ z - marchDays y1 ∧ z - marchDays y1 ≤ 365 := by
    unfold marchDays at *
    omega
  set doy := z - marchDays y1 with hdoydef
  set mp := (5 * doy + 2) / 153 with hmpdef
  have hmp : 0 ≤ mp ∧ mp ≤ 11 := by omega
  by_cases hlt : mp < 10
  · rw [if_pos hlt]
    unfold daysFromCivil
    dsimp only
    rw [if_neg (by omega : ¬ (mp + 3 ≤ 2)), if_pos (by omega : mp + 3 > 2)]
    have e1 : mp + 3 - 3 = mp := by ring
    rw [e1]
    have e2 : y1 + 0 - 0 = y1 := by ring
    rw [e2]
    omega
  · rw [if_neg hlt]
    unfold daysFromCivil
    dsimp only
    rw [if_pos (by omega : mp + -9 ≤ 2), if_neg (by omega : ¬ (mp + -9 > 2))]
    have e1 : mp + -9 + 9 = mp := by ring
    rw [e1]
    have e2 : y1 + 1 - 1 = y1 := by ring
    rw [e2]
    omega

/-- The civil-date correspondence is a bijection on day numbers: converting a
day count to a calendar date and back is the identity.  This is the key
normalization fact behind calendar-exact `setDate` arithmetic. -/
theorem daysFromCivil_civilFromDays (g : Int) :
    daysFromCivil (civilFromDays g).1 (civilFromDays g).2.1 (civilFromDays g).2.2 = g := by
  unfold civilFromDays
  dsimp only
  set z := g + 719468 with hz
  set y0 := (400 * z + 591) / 146097 with hy0
  have hg : z - 719468 = g := by omega
  by_cases hA : z < marchDays y0
  · rw [if_pos hA]
    have h0 : marchDays (y0 - 1) ≤ z := by
      unfold marchDays at *
      omega
    have h1 : z < marchDays (y0 - 1 + 1) := by
      have e : y0 - 1 + 1 = y0 := by ring
      rw [e]
      exact hA
    have hk := reconstructKey z (y0 - 1) h0 h1
    dsimp only at hk
    rw [hk, hg]
  · rw [if_neg hA]
    by_cases hB : marchDays (y0 + 1) ≤ z
    · rw [if_pos hB]
      have h1 : z < marchDays (y0 + 1 + 1) := by
        unfold marchDays at *
        omega
      have hk := reconstructKey z (y0 + 1) hB h1
      dsimp only at hk
      rw [hk, hg]
    · rw [if_neg hB]
      have h0 : marchDays y0 ≤ z := by omega
      have h1 : z < marchDays (y0 + 1) := by omega
      have hk := reconstructKey z y0 h0 h1
      dsimp only at hk
      rw [hk, hg]

/-- `daysFromCivil` is linear in the day-of-month argument: adding days to
the day slot shifts the day count by the same amount (this is what makes
`setDate(getDate() - n)` exact calendar subtraction). -/
theorem daysFromCivil_day_shift (y m d e : Int) :
    daysFromCivil y m (d + e) = daysFromCivil y m d + e := by
  unfold daysFromCivil
  dsimp only
  ring

/- ## Host date functions modelled -/

def msPerDay : Int := 86400000

/-- TimeClip's range test: a time value whose magnitude exceeds
8.64e15 milliseconds makes the `Date` an Invalid Date, and `toISOString`
on it throws a RangeError. -/
def inTimeRange (t : Int) : Bool :=
  -8640000000000000 ≤ t && t ≤ 8640000000000000

/-- The same range test applied by `new Date(number)` before truncation. -/
def inTimeRangeQ (q : ℚ) : Bool :=
  -8640000000000000 ≤ q && q ≤ 8640000000000000

/-- Ceiling division for `Math.ceil((a : Int) / (b : Int))` with `b > 0`. -/
def ceilDivInt (a b : Int) : Int := -((-a) / b)

def isLeapYear (y : Int) : Bool := y % 4 == 0 && (y % 100 != 0 || y % 400 == 0)

def daysInMonth (y m : Int) : Int :=
  if m = 2 then (if isLeapYear y then 29 else 28)
  else if m = 4 ∨ m = 6 ∨ m = 9 ∨ m = 11 then 30
  else 31

def digitVal? (c : Char) : Option Nat :=
  if c.isDigit then some (c.toNat - 48) else none

/-- Parse an ISO `YYYY-MM-DD` date string into a civil triple, validating the
month and the day-of-month range (as the host rejects e.g. `2025-02-30`). -/
def parseISODate (s : String) : Option (Int × Int × Int) :=
  match s.data with
  | [y1, y2, y3, y4, '-', m1, m2, '-', d1, d2] =>
    match digitVal? y1, digitVal? y2, digitVal? y3, digitVal? y4,
          digitVal? m1, digitVal? m2, digitVal? d1, digitVal? d2 with
    | some a, some b, some c, some d, some e, some f, some g, some h =>
      let y : Int := ((a * 10 + b) * 10 + c) * 10 + d
      let m : Int := e * 10 + f
      let day : Int := g * 10 + h
      if 1 ≤ m ∧ m ≤ 12 ∧ 1 ≤ day ∧ day ≤ daysInMonth y m then some (y, m, day)
      else none
    | _, _, _, _, _, _, _, _ => none
  | _ => none

/-- Model of `new Date(value)` yielding epoch milliseconds, or `none` for an
Invalid Date.  ISO date-only strings parse to UTC midnight (four-digit years
keep them far inside the TimeClip range); numbers are TimeClip'd — a
magnitude beyond 8.64e15 ms is an Invalid Date — and otherwise truncated;
`null` and booleans coerce numerically; every other shape — including
non-ISO strings, `undefined`, arrays and objects — is modelled as Invalid
Date. -/
def dateParse : JSValue → Option Int
  | .str s => (parseISODate s).map (fun c => daysFromCivil c.1 c.2.1 c.2.2 * msPerDay)
  | .num q => if inTimeRangeQ q then some (ratTrunc q) else none
  | .null => some 0
  | .bool b => some (if b then 1 else 0)
  | _ => none

def pad2 (n : Int) : String :=
  if 0 ≤ n ∧ n < 10 then "0" ++ intToStr n else intToStr n

def pad4 (n : Int) : String :=
  if 0 ≤ n ∧ n < 10 then "000" ++ intToStr n
  else if 0 ≤ n ∧ n < 100 then "00" ++ intToStr n
  else if 0 ≤ n ∧ n < 1000 then "0" ++ intToStr n
  else intToStr n

/-- The date part of `toISOString` for the date holding epoch day `g`
(i.e. `toISOString().split('T')[0]`). -/
def isoOfDay (g : Int) : String :=
  pad4 (civilFromDays g).1 ++ "-" ++ pad2 (civilFromDays g).2.1 ++ "-" ++ pad2 (civilFromDays g).2.2

/-- Model of `date.setDate(date.getDate() - noticeDays)` on a valid date with
epoch milliseconds `expMs`: `setDate` first truncates its argument toward
zero (ToIntegerOrInfinity), so the fractional part of a non-integer notice
count is dropped at the day level; the resulting (possibly out-of-range)
day-of-month is renormalized through the civil correspondence (MakeDay) and
the time of day is kept (MakeDate).  The TimeClip range test on the result
is applied at the call sites. -/
def computeDeadlineMs (expMs : Int) (notice : ℚ) : Int :=
  let day := expMs / msPerDay
  let tod := expMs - day * msPerDay
  let c := civilFromDays day
  (daysFromCivil c.1 c.2.1 1 + ratTrunc (((c.2.2 : Int) : ℚ) - notice) - 1) * msPerDay + tod

/- ## Canonical agreement records -/

/-- The `processed` record literal built by `processAgreement` (the canonical
agreement before derived fields).  Field names follow the JavaScript
sources.  Multi-value fields are sequences by construction; `annualMinimums`
is a raw `JSValue` because `parseAnnualMinimums` does not in fact guarantee
an array (see the C6/C7 analyses); numeric fields with `|| default` are
rationals, nullable numeric fields are `Option` rationals. -/
structure ProcessedAgreement where
  id : JSValue
  navigatorId : JSValue
  navigatorUrl : JSValue
  title : JSValue
  executionDate : JSValue
  effectiveDate : JSValue
  expirationDate : JSValue
  status : JSValue
  distributorLegalName : JSValue
  lineOfBusiness : JSValue
  initialTermLength : JSValue
  territoryCountries : List JSValue
  productCategories : List JSValue
  customerSegmentRestrictions : JSValue
  exclusivityStatus : JSValue
  performanceBasedExclusivity : JSValue
  exclusivityConversionTrigger : JSValue
  commitmentCurrency : JSValue
  discountMRI_CT : Option ℚ
  discountUltrasound : Option ℚ
  discountPatientMonitoring : Option ℚ
  softwareRevenueShare : Option ℚ
  priceCapIncrease : Option ℚ
  annualMinimums : JSValue
  minimumPerformanceThreshold : ℚ
  currentPerformance : ℚ
  nonRenewalNoticeDays : ℚ
  departmentsImpacted : JSValue
  lastSyncedFromNavigator : JSValue

/-- The agreement after `calculateDerivedFields` has attached the derived
fields. -/
structure EnrichedAgreement extends ProcessedAgreement where
  nonRenewalDeadline : String
  daysUntilExpiration : Int
  daysUntilDeadline : Int
  renewalUrgency : String
  currentYearCommitment : JSValue
  aiRiskScore : String

/-- Default applied with the falsy-coalescing `parseNumber(x) || d` idiom:
both a failed parse (null) and a parsed zero fall through to the default. -/
def numOrDefault (o : Option ℚ) (d : ℚ) : ℚ :=
  match o with
  | some q => if q = 0 then d else q
  | none => d

/-- Model of the `parseNumber` method (identical in all service variants):
`null`, `undefined` and the empty string give null, numbers pass through
(their rendering re-parses to the same value), other strings go through
`parseFloat`, and every remaining shape is first coerced through `ToString`
exactly as `parseFloat` does — so a boolean or a plain object becomes
non-numeric text (NaN, `none`), while an array's comma-join can parse: the
program's `parseFloat(["7"])` is 7, not NaN. -/
def parseNumber (v : JSValue) : Option ℚ :=
  match v with
  | .null => none
  | .undef => none
  | .str s => if s = "" then none else parseFloatChars s.data
  | .num q => some q
  | v => parseFloatChars (jsToString v).data

/-- Model of the urgency classification chain shared verbatim by both
`calculateDerivedFields` implementations (the string values are exactly the
source's `'Urgent'`, `'Warning'`, `'On Track'`). -/
def renewalUrgencyOf (d : Int) : String :=
  if d ≤ 30 ∧ d > 0 then "Urgent"
  else if d ≤ 90 ∧ d > 0 then "Warning"
  else "On Track"

/-- Model of the `calculateRiskScore` method (textually identical in all
variants).  It reads the agreement fields plus the freshly computed
`daysUntilDeadline`, which is passed separately because the JavaScript
mutates it onto the record just before the call. -/
def calculateRiskScore (a : ProcessedAgreement) (daysUntilDeadline : Int) : String :=
  let p1 : Nat :=
    if a.currentPerformance < a.minimumPerformanceThreshold then 3
    else if a.currentPerformance < a.minimumPerformanceThreshold + 5 then 1
    else 0
  let p2 : Nat :=
    if daysUntilDeadline ≤ 30 ∧ daysUntilDeadline > 0 then 3
    else if daysUntilDeadline ≤ 90 ∧ daysUntilDeadline > 0 then 1
    else 0
  let p3 : Nat :=
    if jsEq a.exclusivityStatus (.str "Conditional Exclusive") = true ∧ a.currentPerformance < 90 then 2
    else 0
  let riskPoints := p1 + p2 + p3
  if riskPoints ≥ 5 then "High"
  else if riskPoints ≥ 2 then "Medium"
  else "Low"

/-- The element scan of `annualMinimums.find(m => m.year === currentYear)`:
visits elements in order, throws on a `null`/`undefined` element when the
predicate dereferences `m.year`, stops at the first match. -/
def findYearList (xs : List JSValue) (cy : Int) : Except String (Option JSValue) :=
  match xs with
  | [] => .ok none
  | x :: rest =>
    match x with
    | .null => .error "Cannot read properties of null"
    | .undef => .error "Cannot read properties of undefined"
    | _ =>
      if jsEq (jsField x "year") (.num (cy : ℚ)) then .ok (some x)
      else findYearList rest cy

/-- The `yearCommitment?.amount || 0` lookup: `.find` on a non-array value
throws a TypeError; a missing match or missing amount yields 0. -/
def findYearCommitment (mins : JSValue) (cy : Int) : Except String JSValue :=
  match mins with
  | .arr xs =>
    match findYearList xs cy with
    | .error e => .error e
    | .ok none => .ok (.num 0)
    | .ok (some e) => .ok (jsOr (jsField e "amount") (.num 0))
  | _ => .error "annualMinimums.find is not a function"

/-- Sequential `Array.prototype.map` over a callback that may throw: the
first exception aborts the whole map. -/
def mapExcept (f : α → Except String β) : List α → Except String (List β)
  | [] => .ok []
  | x :: rest =>
    match f x with
    | .error e => .error e
    | .ok y =>
      match mapExcept f rest with
      | .error e => .error e
      | .ok ys => .ok (y :: ys)

/- ## Conflict detection (textually identical in all service variants) -/

structure ConflictParty where
  id : JSValue
  title : JSValue
  exclusivity : JSValue

structure ConflictRecord where
  type : String
  severity : String
  agreement1 : ConflictParty
  agreement2 : ConflictParty
  overlappingTerritories : List JSValue
  overlappingProducts : List JSValue

/-- Body of the inner loop of `detectConflicts` for one ordered pair:
territory-overlap guard, product-overlap guard, the three-clause
`hasConflict` disjunction, and the record literal that is pushed. -/
def pairConflict (a b : EnrichedAgreement) : Option ConflictRecord :=
  let territoryOverlap := a.territoryCountries.any (fun t => jsIncludes b.territoryCountries t)
  if !territoryOverlap then none
  else
    let productOverlap := a.productCategories.any (fun p => jsIncludes b.productCategories p)
    if !productOverlap then none
    else
      let hasConflict :=
        (jsEq a.exclusivityStatus (.str "Exclusive") && jsEq b.exclusivityStatus (.str "Exclusive")) ||
        (jsEq a.exclusivityStatus (.str "Exclusive") && !jsEq b.exclusivityStatus (.str "Exclusive")) ||
        (jsEq b.exclusivityStatus (.str "Exclusive") && !jsEq a.exclusivityStatus (.str "Exclusive"))
      if hasConflict then
        some
          { type := "Territory/Product Conflict"
            severity :=
              if jsEq a.exclusivityStatus (.str "Exclusive") && jsEq b.exclusivityStatus (.str "Exclusive")
              then "High" else "Medium"
            agreement1 := { id := a.id, title := a.title, exclusivity := a.exclusivityStatus }
            agreement2 := { id := b.id, title := b.title, exclusivity := b.exclusivityStatus }
            overlappingTerritories := a.territoryCountries.filter (fun t => jsIncludes b.territoryCountries t)
            overlappingProducts := a.productCategories.filter (fun p => jsIncludes b.productCategories p) }
      else none

/-- The `i < j` double loop of `detectConflicts`: each later element is paired
with each earlier one, in ascending `i` then ascending `j` order. -/
def detectConflicts : List EnrichedAgreement → List ConflictRecord
  | [] => []
  | a :: rest => (rest.filterMap (fun b => pairConflict a b)) ++ detectConflicts rest

/- ## The PKCE service class (`navigator-api-service-pkce.js`) -/

namespace NavigatorAPIServicePKCE

/-- The PKCE variant of `parseMultiValue`: arrays pass through; strings are
tried as JSON (an array result is returned, any other JSON value yields the
one-element array holding the original string), and on JSON failure are
split on the regex `/[,;]/` — comma and semicolon only — with trimming and
dropping of empty tokens; any other shape yields the empty array. -/
def parseMultiValue (value : JSValue) : List JSValue :=
  match value with
  | .arr xs => xs
  | .str s =>
    (match jsonParse s with
     | some (.arr xs) => xs
     | some _ => [.str s]
     | none => (splitTokens [',', ';'] s).map JSValue.str)
  | _ => []

/-- The PKCE variant of `parseAnnualMinimums`: arrays pass through; strings
return whatever `JSON.parse` yields — there is no `Array.isArray` check on
the parsed value — with a parse failure and every non-array non-string shape
yielding the empty array. -/
def parseAnnualMinimums (value : JSValue) : JSValue :=
  match value with
  | .arr xs => .arr xs
  | .str s =>
    (match jsonParse s with
     | some v => v
     | none => .arr [])
  | _ => .arr []

/-- The `processed` object literal of `processAgreement` (lines 279-318 of
the PKCE file).  `now` is the evaluation instant in epoch milliseconds (used
only for the `lastSyncedFromNavigator` stamp, modelled by its date part). -/
def buildProcessed (now : Int) (raw : JSValue) : ProcessedAgreement :=
  let customFields := jsOr (jsField raw "customFields") (.obj [])
  { id := jsOr (jsField raw "id") (jsField raw "agreementId")
    navigatorId := jsField raw "id"
    navigatorUrl := jsOr (jsField raw "documentUrl") (jsField raw "viewUrl")
    title := jsOr (jsField customFields "title") (jsField raw "name")
    executionDate := jsOr (jsField customFields "executionDate") (jsField raw "executionDate")
    effectiveDate := jsOr (jsField customFields "effectiveDate") (jsField raw "effectiveDate")
    expirationDate := jsOr (jsField customFields "expirationDate") (jsField raw "expirationDate")
    status := jsOr (jsField raw "status") (.str "Active")
    distributorLegalName := jsOr (jsField customFields "distributorLegalName") (.str "")
    lineOfBusiness := jsOr (jsField customFields "lineOfBusiness") (.str "")
    initialTermLength := jsOr (jsField customFields "initialTermLength") (.str "")
    territoryCountries := parseMultiValue (jsField customFields "territoryCountries")
    productCategories := parseMultiValue (jsField customFields "productCategories")
    customerSegmentRestrictions := jsOr (jsField customFields "customerSegmentRestrictions") (.str "")
    exclusivityStatus := jsOr (jsField customFields "exclusivityStatus") (.str "Non-Exclusive")
    performanceBasedExclusivity := jsOr (jsField customFields "performanceBasedExclusivity") (.str "No")
    exclusivityConversionTrigger := jsOr (jsField customFields "exclusivityConversionTrigger") (.str "")
    commitmentCurrency := jsOr (jsField customFields "commitmentCurrency") (.str "USD")
    discountMRI_CT := parseNumber (jsField customFields "discountMRI_CT")
    discountUltrasound := parseNumber (jsField customFields "discountUltrasound")
    discountPatientMonitoring := parseNumber (jsField customFields "discountPatientMonitoring")
    softwareRevenueShare := parseNumber (jsField customFields "softwareRevenueShare")
    priceCapIncrease := parseNumber (jsField customFields "priceCapIncrease")
    annualMinimums := parseAnnualMinimums (jsField customFields "annualMinimums")
    minimumPerformanceThreshold := numOrDefault (parseNumber (jsField customFields "minimumPerformanceThreshold")) 85
    currentPerformance := numOrDefault (parseNumber (jsField customFields "currentPerformance")) 0
    nonRenewalNoticeDays := numOrDefault (parseNumber (jsField customFields "nonRenewalNoticeDays")) 90
    departmentsImpacted := jsOr (jsField customFields "departmentsImpacted") (.str "")
    lastSyncedFromNavigator := .str (isoOfDay (now / msPerDay)) }

/-- The PKCE `calculateDerivedFields` (lines 323-349): parses the expiration
date (an unparseable one makes the later `toISOString()` throw a RangeError,
modelled as the error case), subtracts the notice days with calendar
`setDate` semantics — whose TimeClip makes the deadline an Invalid Date when
it leaves the ±8.64e15 ms range, so its `toISOString()` also throws —,
computes the two ceiling-rounded day distances, the urgency tier, the
current-year commitment (which throws when `annualMinimums` is not an
array), and the risk score. -/
def calculateDerivedFields (now : Int) (a : ProcessedAgreement) : Except String EnrichedAgreement :=
  match dateParse a.expirationDate with
  | none => .error "Invalid time value"
  | some expMs =>
    let ddlMs := computeDeadlineMs expMs a.nonRenewalNoticeDays
    if ¬ inTimeRange ddlMs then .error "Invalid time value" else
    let dUD := ceilDivInt (ddlMs - now) msPerDay
    match findYearCommitment a.annualMinimums (civilFromDays (now / msPerDay)).1 with
    | .error e => .error e
    | .ok commitment =>
      .ok
        { toProcessedAgreement := a
          nonRenewalDeadline := isoOfDay (ddlMs / msPerDay)
          daysUntilExpiration := ceilDivInt (expMs - now) msPerDay
          daysUntilDeadline := dUD
          renewalUrgency := renewalUrgencyOf dUD
          currentYearCommitment := commitment
          aiRiskScore := calculateRiskScore a dUD }

/-- `processAgreement` of the PKCE class: dereferencing `.customFields` on a
`null`/`undefined` record throws; otherwise the record literal is built and
the derived fields are computed. -/
def processAgreement (now : Int) (raw : JSValue) : Except String EnrichedAgreement :=
  match raw with
  | .null => .error "Cannot read properties of null"
  | .undef => .error "Cannot read properties of undefined"
  | _ => calculateDerivedFields now (buildProcessed now raw)

end NavigatorAPIServicePKCE

/- ## The implicit-grant service class (the two unnamed source files) -/

/-- Outcome of the authenticated list fetch inside `getAllAgreements`'s
`try` block: a rejected fetch or any other exception thrown before the data
arrives (network failure, failed user-info lookup), a non-OK HTTP response,
or a decoded JSON body. -/
inductive FetchOutcome where
  | networkFailure
  | apiError (status : Nat)
  | ok (body : JSValue)

/-- Result record of `syncAgreements`.  The timing fields of the source
(`syncTime`, `lastSyncTime`) are informational and not modelled; on the
failure path the source record carries no counts, modelled here as zeros. -/
structure SyncResult where
  success : Bool
  count : Nat
  conflicts : Nat
  error : Option String
  usingCache : Bool

namespace NavigatorAPIServiceImplicit

/-- The implicit-grant `parseMultiValue`: like the PKCE one but the string
branch additionally requires a non-empty (truthy) string, and the delimiter
fallback splits on the regex `/[,;|]/` — comma, semicolon and pipe. -/
def parseMultiValue (value : JSValue) : List JSValue :=
  match value with
  | .arr xs => xs
  | .str s =>
    if s = "" then []
    else
      match jsonParse s with
      | some (.arr xs) => xs
      | some _ => [.str s]
      | none => (splitTokens [',', ';', '|'] s).map JSValue.str
  | _ => []

/-- The implicit-grant `parseAnnualMinimums` (same as the PKCE one except for
the truthy-string guard, which changes nothing observable because the empty
string fails to parse as JSON anyway). -/
def parseAnnualMinimums (value : JSValue) : JSValue :=
  match value with
  | .arr xs => .arr xs
  | .str s =>
    if s = "" then .arr []
    else
      match jsonParse s with
      | some v => v
      | none => .arr []
  | _ => .arr []

/-- `calculateExpirationDate`: when the raw record has a truthy top-level
`effectiveDate` and `termLength`, add `parseInt(termLength) || 1` years to
the effective date via `setFullYear` (an unparseable effective date makes
`toISOString` throw); otherwise one year from the evaluation instant. -/
def calculateExpirationDate (now : Int) (raw : JSValue) : Except String String :=
  if jsTruthy (jsField raw "effectiveDate") && jsTruthy (jsField raw "termLength") then
    match dateParse (jsField raw "effectiveDate") with
    | none => .error "Invalid time value"
    | some ms =>
      let years :=
        match parseIntJS (jsField raw "termLength") with
        | some n => if n = 0 then 1 else n
        | none => 1
      let c := civilFromDays (ms / msPerDay)
      .ok (isoOfDay (daysFromCivil (c.1 + years) c.2.1 c.2.2))
  else
    let c := civilFromDays (now / msPerDay)
    .ok (isoOfDay (daysFromCivil (c.1 + 1) c.2.1 c.2.2))

/-- The `processed` object literal of the implicit-grant `processAgreement`
(with its synonym fallback keys and the expiration-date estimate). -/
def buildProcessed (now : Int) (raw : JSValue) : Except String ProcessedAgreement :=
  let customFields := jsOr (jsField raw "customFields") (.obj [])
  let expCand := jsOr (jsField customFields "expirationDate") (jsField raw "expirationDate")
  let expResolved : Except String JSValue :=
    if jsTruthy expCand then .ok expCand
    else (calculateExpirationDate now raw).map JSValue.str
  match expResolved with
  | .error e => .error e
  | .ok expv =>
    .ok
      { id := jsOr (jsOr (jsField raw "id") (jsField raw "agreementId")) (.str ("agr-" ++ intToStr now))
        navigatorId := jsField raw "id"
        navigatorUrl := jsOr (jsOr (jsField raw "documentUrl") (jsField raw "viewUrl")) (jsField raw "url")
        title := jsOr (jsOr (jsField customFields "agreementTitle") (jsField customFields "title"))
                   (jsOr (jsField raw "name") (.str "Untitled Agreement"))
        executionDate := jsOr (jsOr (jsField customFields "executionDate") (jsField raw "executionDate"))
                           (jsField raw "createdDate")
        effectiveDate := jsOr (jsOr (jsField customFields "effectiveDate") (jsField raw "effectiveDate"))
                           (jsField raw "executionDate")
        expirationDate := expv
        status := jsOr (jsField raw "status") (.str "Active")
        distributorLegalName := jsOr (jsOr (jsField customFields "distributorLegalName")
                                        (jsField customFields "distributorName")) (.str "Unknown Distributor")
        lineOfBusiness := jsOr (jsOr (jsField customFields "lineOfBusiness")
                                  (jsField customFields "businessLine")) (.str "")
        initialTermLength := jsOr (jsOr (jsField customFields "initialTermLength")
                                     (jsField customFields "termLength")) (.str "")
        territoryCountries := parseMultiValue (jsOr (jsOr (jsField customFields "territoryCountries")
                                (jsField customFields "territories")) (jsField customFields "territory"))
        productCategories := parseMultiValue (jsOr (jsOr (jsField customFields "productCategories")
                               (jsField customFields "products")) (jsField customFields "product"))
        customerSegmentRestrictions := jsOr (jsOr (jsField customFields "customerSegmentRestrictions")
                                          (jsField customFields "customerSegments")) (.str "")
        exclusivityStatus := jsOr (jsOr (jsField customFields "exclusivityStatus")
                               (jsField customFields "exclusivity")) (.str "Non-Exclusive")
        performanceBasedExclusivity := jsOr (jsField customFields "performanceBasedExclusivity") (.str "No")
        exclusivityConversionTrigger := jsOr (jsField customFields "exclusivityConversionTrigger") (.str "")
        commitmentCurrency := jsOr (jsOr (jsField customFields "commitmentCurrency")
                                 (jsField customFields "currency")) (.str "USD")
        discountMRI_CT := parseNumber (jsOr (jsField customFields "discountMRI_CT")
                            (jsField customFields "discount-mri-ct"))
        discountUltrasound := parseNumber (jsOr (jsField customFields "discountUltrasound")
                                (jsField customFields "discount-ultrasound"))
        discountPatientMonitoring := parseNumber (jsOr (jsField customFields "discountPatientMonitoring")
                                       (jsField customFields "discount-patient-monitoring"))
        softwareRevenueShare := parseNumber (jsOr (jsField customFields "softwareRevenueShare")
                                  (jsField customFields "softwareShare"))
        priceCapIncrease := parseNumber (jsOr (jsField customFields "priceCapIncrease")
                              (jsField customFields "priceCap"))
        annualMinimums := parseAnnualMinimums (jsOr (jsField customFields "annualMinimums")
                            (jsField customFields "minimums"))
        minimumPerformanceThreshold := numOrDefault (parseNumber (jsOr
          (jsField customFields "minimumPerformanceThreshold")
          (jsField customFields "performanceThreshold"))) 85
        currentPerformance := numOrDefault (parseNumber (jsOr (jsField customFields "currentPerformance")
                                (jsField customFields "performance"))) 0
        nonRenewalNoticeDays := numOrDefault (parseNumber (jsOr (jsField customFields "nonRenewalNoticeDays")
                                  (jsField customFields "noticeDays"))) 90
        departmentsImpacted := jsOr (jsOr (jsField customFields "departmentsImpacted")
                                  (jsField customFields "departments")) (.str "")
        lastSyncedFromNavigator := .undef }

/-- The implicit-grant `calculateDerivedFields`: identical to the PKCE one
(including the Invalid-Date error paths for an unparseable expiration date
and for a TimeClip'd deadline) except that it also stamps
`lastSyncedFromNavigator` (modelled by the date part of the evaluation
instant). -/
def calculateDerivedFields (now : Int) (a : ProcessedAgreement) : Except String EnrichedAgreement :=
  match dateParse a.expirationDate with
  | none => .error "Invalid time value"
  | some expMs =>
    let ddlMs := computeDeadlineMs expMs a.nonRenewalNoticeDays
    if ¬ inTimeRange ddlMs then .error "Invalid time value" else
    let dUD := ceilDivInt (ddlMs - now) msPerDay
    match findYearCommitment a.annualMinimums (civilFromDays (now / msPerDay)).1 with
    | .error e => .error e
    | .ok commitment =>
      .ok
        { toProcessedAgreement := { a with lastSyncedFromNavigator := .str (isoOfDay (now / msPerDay)) }
          nonRenewalDeadline := isoOfDay (ddlMs / msPerDay)
          daysUntilExpiration := ceilDivInt (expMs - now) msPerDay
          daysUntilDeadline := dUD
          renewalUrgency := renewalUrgencyOf dUD
          currentYearCommitment := commitment
          aiRiskScore := calculateRiskScore a dUD }

/-- `processAgreement` of the implicit-grant class. -/
def processAgreement (now : Int) (raw : JSValue) : Except String EnrichedAgreement :=
  match raw with
  | .null => .error "Cannot read properties of null"
  | .undef => .error "Cannot read properties of undefined"
  | _ =>
    match buildProcessed now raw with
    | .error e => .error e
    | .ok p => calculateDerivedFields now p

end NavigatorAPIServiceImplicit

namespace NavigatorAPIServiceImplicit

/-- The fixed five-record demo dataset of `getSampleAgreements`, transcribed
field-for-field from the source literals (keys absent from a literal are
`undefined`). -/
def sample1 : ProcessedAgreement :=
    { id := .str "AGR-001"
      navigatorId := .str "nav_001"
      navigatorUrl := .str "https://navigator-d.docusign.com/agreements/nav_001"
      title := .str "[SAMPLE] Germany & Austria - Imaging Systems"
      executionDate := .str "2024-01-15"
      effectiveDate := .str "2024-02-01"
      expirationDate := .str "2027-01-31"
      status := .str "Active"
      distributorLegalName := .str "MedizinTechnik Deutschland GmbH [SAMPLE]"
      lineOfBusiness := .str "Medical Imaging"
      initialTermLength := .str "3 years"
      territoryCountries := [.str "Germany", .str "Austria"]
      productCategories := [.str "MRI Systems", .str "CT Scanners", .str "Ultrasound Systems"]
      customerSegmentRestrictions := .str "All healthcare facilities"
      exclusivityStatus := .str "Exclusive"
      performanceBasedExclusivity := .str "Yes"
      exclusivityConversionTrigger := .undef
      commitmentCurrency := .str "EUR"
      discountMRI_CT := some 38
      discountUltrasound := some 42
      discountPatientMonitoring := none
      softwareRevenueShare := some 40
      priceCapIncrease := some 3
      annualMinimums := .arr
        [ .obj [("year", .num 2024), ("amount", .num 2000000)],
          .obj [("year", .num 2025), ("amount", .num 2500000)],
          .obj [("year", .num 2026), ("amount", .num 3000000)] ]
      minimumPerformanceThreshold := 85
      currentPerformance := 92
      nonRenewalNoticeDays := 90
      departmentsImpacted := .str "Legal; Sales; Finance"
      lastSyncedFromNavigator := .undef }

def sample2 : ProcessedAgreement :=
    { id := .str "AGR-002"
      navigatorId := .str "nav_002"
      navigatorUrl := .str "https://navigator-d.docusign.com/agreements/nav_002"
      title := .str "[SAMPLE] UK & Ireland - Patient Monitoring"
      executionDate := .str "2023-06-10"
      effectiveDate := .str "2023-07-01"
      expirationDate := .str "2025-06-30"
      status := .str "Active"
      distributorLegalName := .str "BritMed Solutions Ltd. [SAMPLE]"
      lineOfBusiness := .str "Patient Monitoring"
      initialTermLength := .str "2 years"
      territoryCountries := [.str "United Kingdom", .str "Ireland"]
      productCategories := [.str "Patient Monitoring Systems", .str "AI Software"]
      customerSegmentRestrictions := .str "Hospitals and clinics only"
      exclusivityStatus := .str "Conditional Exclusive"
      performanceBasedExclusivity := .str "Yes"
      exclusivityConversionTrigger := .undef
      commitmentCurrency := .str "GBP"
      discountMRI_CT := none
      discountUltrasound := none
      discountPatientMonitoring := some 35
      softwareRevenueShare := some 45
      priceCapIncrease := some (5 / 2)
      annualMinimums := .arr
        [ .obj [("year", .num 2023), ("amount", .num 800000)],
          .obj [("year", .num 2024), ("amount", .num 1000000)],
          .obj [("year", .num 2025), ("amount", .num 1200000)] ]
      minimumPerformanceThreshold := 85
      currentPerformance := 78
      nonRenewalNoticeDays := 90
      departmentsImpacted := .str "Legal; Sales"
      lastSyncedFromNavigator := .undef }

def sample3 : ProcessedAgreement :=
    { id := .str "AGR-003"
      navigatorId := .str "nav_003"
      navigatorUrl := .str "https://navigator-d.docusign.com/agreements/nav_003"
      title := .str "[SAMPLE] Japan - Advanced Imaging & AI"
      executionDate := .str "2024-09-20"
      effectiveDate := .str "2024-10-01"
      expirationDate := .str "2028-09-30"
      status := .str "Active"
      distributorLegalName := .str "NipponMed Technologies K.K. [SAMPLE]"
      lineOfBusiness := .str "Medical Imaging"
      initialTermLength := .str "4 years"
      territoryCountries := [.str "Japan"]
      productCategories := [.str "MRI Systems", .str "CT Scanners", .str "AI Software"]
      customerSegmentRestrictions := .str "All healthcare facilities"
      exclusivityStatus := .str "Exclusive"
      performanceBasedExclusivity := .str "No"
      exclusivityConversionTrigger := .undef
      commitmentCurrency := .str "JPY"
      discountMRI_CT := some 40
      discountUltrasound := some 38
      discountPatientMonitoring := none
      softwareRevenueShare := some 35
      priceCapIncrease := some 4
      annualMinimums := .arr
        [ .obj [("year", .num 2024), ("amount", .num 500000000)],
          .obj [("year", .num 2025), ("amount", .num 600000000)],
          .obj [("year", .num 2026), ("amount", .num 700000000)],
          .obj [("year", .num 2027), ("amount", .num 800000000)] ]
      minimumPerformanceThreshold := 90
      currentPerformance := 95
      nonRenewalNoticeDays := 120
      departmentsImpacted := .str "Legal; Sales; Finance; R&D"
      lastSyncedFromNavigator := .undef }

def sample4 : ProcessedAgreement :=
    { id := .str "AGR-004"
      navigatorId := .str "nav_004"
      navigatorUrl := .str "https://navigator-d.docusign.com/agreements/nav_004"
      title := .str "[SAMPLE] Brazil - Ultrasound Systems"
      executionDate := .str "2023-03-05"
      effectiveDate := .str "2023-04-01"
      expirationDate := .str "2025-03-31"
      status := .str "Active"
      distributorLegalName := .str "MedSul Distribuidora Ltda. [SAMPLE]"
      lineOfBusiness := .str "Medical Imaging"
      initialTermLength := .str "2 years"
      territoryCountries := [.str "Brazil"]
      productCategories := [.str "Ultrasound Systems"]
      customerSegmentRestrictions := .str "Private healthcare only"
      exclusivityStatus := .str "Non-Exclusive"
      performanceBasedExclusivity := .str "No"
      exclusivityConversionTrigger := .undef
      commitmentCurrency := .str "BRL"
      discountMRI_CT := none
      discountUltrasound := some 45
      discountPatientMonitoring := none
      softwareRevenueShare := none
      priceCapIncrease := some 5
      annualMinimums := .arr
        [ .obj [("year", .num 2023), ("amount", .num 3000000)],
          .obj [("year", .num 2024), ("amount", .num 3500000)],
          .obj [("year", .num 2025), ("amount", .num 4000000)] ]
      minimumPerformanceThreshold := 80
      currentPerformance := 65
      nonRenewalNoticeDays := 60
      departmentsImpacted := .str "Sales; Finance"
      lastSyncedFromNavigator := .undef }

def sample5 : ProcessedAgreement :=
    { id := .str "AGR-005"
      navigatorId := .str "nav_005"
      navigatorUrl := .str "https://navigator-d.docusign.com/agreements/nav_005"
      title := .str "[SAMPLE] Australia & New Zealand - Full Portfolio"
      executionDate := .str "2024-11-12"
      effectiveDate := .str "2024-12-01"
      expirationDate := .str "2027-11-30"
      status := .str "Active"
      distributorLegalName := .str "AusMed Healthcare Solutions Pty Ltd [SAMPLE]"
      lineOfBusiness := .str "Medical Equipment"
      initialTermLength := .str "3 years"
      territoryCountries := [.str "Australia", .str "New Zealand"]
      productCategories := [.str "MRI Systems", .str "CT Scanners", .str "Ultrasound Systems",
                            .str "Patient Monitoring Systems", .str "AI Software"]
      customerSegmentRestrictions := .str "All healthcare facilities"
      exclusivityStatus := .str "Exclusive"
      performanceBasedExclusivity := .str "Yes"
      exclusivityConversionTrigger := .undef
      commitmentCurrency := .str "AUD"
      discountMRI_CT := some 36
      discountUltrasound := some 40
      discountPatientMonitoring := some 38
      softwareRevenueShare := some 42
      priceCapIncrease := some (7 / 2)
      annualMinimums := .arr
        [ .obj [("year", .num 2024), ("amount", .num 3000000)],
          .obj [("year", .num 2025), ("amount", .num 4000000)],
          .obj [("year", .num 2026), ("amount", .num 5000000)] ]
      minimumPerformanceThreshold := 85
      currentPerformance := 88
      nonRenewalNoticeDays := 90
      departmentsImpacted := .str "Legal; Sales; Finance; Operations"
      lastSyncedFromNavigator := .undef }

def sampleData : List ProcessedAgreement := [sample1, sample2, sample3, sample4, sample5]

/-- `getSampleAgreements`: the demo records run through
`calculateDerivedFields`; an exception in the map would propagate. -/
def getSampleAgreements (now : Int) : Except String (List EnrichedAgreement) :=
  mapExcept (calculateDerivedFields now) sampleData

/-- The per-record detail-fetch loop: the `.id` access on a `null` or
`undefined` list element throws (it sits outside the per-element `try`, so
the exception propagates to `getAllAgreements`'s own catch); records whose
resolved id is falsy are skipped; for the rest the oracle `details` says
whether the detail fetch succeeded (`some` detailed payload) or failed/was
rejected (keep the basic record, the per-element `try` catches that). -/
def fetchAgreementDetails (details : JSValue → Option JSValue) :
    List JSValue → Except String (List JSValue)
  | [] => .ok []
  | basic :: rest =>
    match basic with
    | .null => .error "Cannot read properties of null"
    | .undef => .error "Cannot read properties of undefined"
    | _ =>
      let idv := jsOr (jsField basic "id") (jsField basic "agreementId")
      match fetchAgreementDetails details rest with
      | .error e => .error e
      | .ok ds => .ok (if jsTruthy idv then (details idv).getD basic :: ds else ds)

/-- `getAllAgreements`: authentication guard, then the `try` block — a fetch
rejection or error response falls back to the sample data, an empty or
non-array agreement list falls back to the sample data, and any exception
thrown while detail-fetching (a nullish list element) or processing the
fetched records is caught by the same `catch` and also falls back to the
sample data. -/
def getAllAgreements (authed : Bool) (fetch : FetchOutcome)
    (details : JSValue → Option JSValue) (now : Int) : Except String (List EnrichedAgreement) :=
  if ¬ authed then .error "Not authenticated"
  else
    match fetch with
    | .networkFailure => getSampleAgreements now
    | .apiError _ => getSampleAgreements now
    | .ok body =>
      let agreementsList := jsOr (jsField body "agreements") (jsOr (jsField body "items") body)
      match agreementsList with
      | .arr [] => getSampleAgreements now
      | .arr xs =>
        (match fetchAgreementDetails details xs with
         | .error _ => getSampleAgreements now
         | .ok ds =>
           match mapExcept (processAgreement now) ds with
           | .ok ags => .ok ags
           | .error _ => getSampleAgreements now)
      | _ => getSampleAgreements now

/-- `syncAgreements`: authentication guard, fetch+process (with its internal
sample-data fallback), conflict detection, cache replacement (the cache
write itself is outside the model), and the success/failure result record.
`cacheAvailable` is the result the `loadFromCache()` call would report on
the failure path. -/
def syncAgreements (authed : Bool) (fetch : FetchOutcome)
    (details : JSValue → Option JSValue) (now : Int) (cacheAvailable : Bool) : SyncResult :=
  if ¬ authed then
    { success := false, count := 0, conflicts := 0,
      error := some "Not authenticated", usingCache := cacheAvailable }
  else
    match getAllAgreements true fetch details now with
    | .error e =>
      { success := false, count := 0, conflicts := 0,
        error := some e, usingCache := cacheAvailable }
    | .ok agreements =>
      { success := true, count := agreements.length,
        conflicts := (detectConflicts agreements).length,
        error := none, usingCache := false }

end NavigatorAPIServiceImplicit

/- ## Spec-side definitions

These definitions transcribe the specification's wording so that the claim
theorems can compare the source-translated functions against them. -/

/-- Shape tests used in the claim statements. -/
def isArr : JSValue → Bool
  | .arr _ => true
  | _ => false

def isStringOrArr : JSValue → Bool
  | .str _ => true
  | .arr _ => true
  | _ => false

/-- Element-wise intersection of two JavaScript arrays, in the order of the
first (`a.filter(t => b.includes(t))`). -/
def interJS (xs ys : List JSValue) : List JSValue :=
  xs.filter (fun t => jsIncludes ys t)

/-- Specification wording of the conflict rule for one ordered pair: a record
is emitted iff the territory intersection and the product intersection are
both non-empty and at least one of the two agreements is `Exclusive`; its
severity is `High` iff both are `Exclusive` (`Medium` otherwise) and it
carries exactly the two element-wise intersections. -/
def conflictSpecRecord (a b : EnrichedAgreement) : Option ConflictRecord :=
  if (interJS a.territoryCountries b.territoryCountries).isEmpty = false ∧
     (interJS a.productCategories b.productCategories).isEmpty = false ∧
     (jsEq a.exclusivityStatus (.str "Exclusive") = true ∨
      jsEq b.exclusivityStatus (.str "Exclusive") = true) then
    some
      { type := "Territory/Product Conflict"
        severity :=
          if jsEq a.exclusivityStatus (.str "Exclusive") = true ∧
             jsEq b.exclusivityStatus (.str "Exclusive") = true
          then "High" else "Medium"
        agreement1 := { id := a.id, title := a.title, exclusivity := a.exclusivityStatus }
        agreement2 := { id := b.id, title := b.title, exclusivity := b.exclusivityStatus }
        overlappingTerritories := interJS a.territoryCountries b.territoryCountries
        overlappingProducts := interJS a.productCategories b.productCategories }
  else none

/-- All unordered pairs of a list, visited as the `i < j` double loop does:
ascending first index, then ascending second index. -/
def allPairs : List α → List (α × α)
  | [] => []
  | a :: rest => (rest.map (fun b => (a, b))) ++ allPairs rest

/-- Specification wording of the three risk point rules and the tier map. -/
def perfPoints (perf thresh : ℚ) : Nat :=
  if perf < thresh then 3 else if perf < thresh + 5 then 1 else 0

def deadlinePoints (d : Int) : Nat :=
  if 0 < d ∧ d ≤ 30 then 3 else if 0 < d ∧ d ≤ 90 then 1 else 0

def condExclPoints (excl : JSValue) (perf : ℚ) : Nat :=
  if jsEq excl (.str "Conditional Exclusive") = true ∧ perf < 90 then 2 else 0

def riskTierOf (n : Nat) : String :=
  if 5 ≤ n then "High" else if 2 ≤ n then "Medium" else "Low"

/-- Is a value an array all of whose elements tolerate property access
(no `null`/`undefined` elements)?  This is the condition under which the
`annualMinimums.find` lookup cannot throw. -/
def annualMinimumsOk : JSValue → Bool
  | .arr xs => xs.all (fun x => !isNullish x)
  | _ => false

/- ## Helper lemmas -/

theorem filter_isEmpty_eq_not_any (p : α → Bool) (l : List α) :
    (l.filter p).isEmpty = !(l.any p) := by
  induction l with
  | nil => rfl
  | cons x xs ih =>
    cases hx : p x <;> simp [List.filter_cons, hx, ih]

theorem pairConflict_eq_spec (a b : EnrichedAgreement) :
    pairConflict a b = conflictSpecRecord a b := by
  unfold pairConflict conflictSpecRecord interJS
  have hT := filter_isEmpty_eq_not_any (fun t => jsIncludes b.territoryCountries t) a.territoryCountries
  have hP := filter_isEmpty_eq_not_any (fun p => jsIncludes b.productCategories p) a.productCategories
  cases hTa : a.territoryCountries.any (fun t => jsIncludes b.territoryCountries t) <;>
    cases hPa : a.productCategories.any (fun p => jsIncludes b.productCategories p) <;>
      cases hA : jsEq a.exclusivityStatus (.str "Exclusive") <;>
        cases hB : jsEq b.exclusivityStatus (.str "Exclusive") <;>
          simp_all

theorem ratTrunc_intCast (n : Int) : ratTrunc (n : ℚ) = n := by
  unfold ratTrunc
  rw [Rat.num_intCast, Rat.den_intCast]
  split_ifs with h
  · have hn : n < 0 := by exact_mod_cast h
    omega
  · omega

theorem findYearList_ok (xs : List JSValue) (cy : Int)
    (h : xs.all (fun x => !isNullish x) = true) :
    ∃ r, findYearList xs cy = .ok r := by
  induction xs with
  | nil => exact ⟨none, rfl⟩
  | cons x rest ih =>
    simp only [List.all_cons, Bool.and_eq_true] at h
    obtain ⟨hx, hrest⟩ := h
    obtain ⟨r, hr⟩ := ih hrest
    cases x <;> simp_all [findYearList, isNullish] <;> split_ifs <;> simp [hr]

theorem findYearCommitment_ok (xs : List JSValue) (cy : Int)
    (h : xs.all (fun x => !isNullish x) = true) :
    ∃ c, findYearCommitment (.arr xs) cy = .ok c := by
  unfold findYearCommitment
  dsimp only
  obtain ⟨r, hr⟩ := findYearList_ok xs cy h
  rw [hr]
  cases r with
  | none => exact ⟨_, rfl⟩
  | some e => exact ⟨_, rfl⟩

theorem calculateDerivedFields_ok_impl (now : Int) (a : ProcessedAgreement) (ms : Int)
    (hms : dateParse a.expirationDate = some ms)
    (hcl : inTimeRange (computeDeadlineMs ms a.nonRenewalNoticeDays) = true)
    (h2 : annualMinimumsOk a.annualMinimums = true) :
    ∃ e, NavigatorAPIServiceImplicit.calculateDerivedFields now a = .ok e ∧
      e.territoryCountries = a.territoryCountries ∧
      e.productCategories = a.productCategories := by
  obtain ⟨xs, hxs⟩ : ∃ xs, a.annualMinimums = .arr xs := by
    cases hm : a.annualMinimums <;> simp_all [annualMinimumsOk]
  have hall : xs.all (fun x => !isNullish x) = true := by
    rw [hxs] at h2
    simpa [annualMinimumsOk] using h2
  obtain ⟨c, hc⟩ := findYearCommitment_ok xs ((civilFromDays (now / msPerDay)).1) hall
  unfold NavigatorAPIServiceImplicit.calculateDerivedFields
  rw [hms]
  dsimp only
  rw [if_neg (by simp [hcl])]
  rw [hxs, hc]
  exact ⟨_, rfl, rfl, rfl⟩

theorem getSampleAgreements_ok (now : Int) :
    ∃ ags, NavigatorAPIServiceImplicit.getSampleAgreements now = .ok ags ∧ ags.length = 5 := by
  obtain ⟨e1, he1, -, -⟩ :=
    calculateDerivedFields_ok_impl now NavigatorAPIServiceImplicit.sample1 1801353600000
      (by decide) (by with_unfolding_all rfl) (by decide)
  obtain ⟨e2, he2, -, -⟩ :=
    calculateDerivedFields_ok_impl now NavigatorAPIServiceImplicit.sample2 1751241600000
      (by decide) (by with_unfolding_all rfl) (by decide)
  obtain ⟨e3, he3, -, -⟩ :=
    calculateDerivedFields_ok_impl now NavigatorAPIServiceImplicit.sample3 1853884800000
      (by decide) (by with_unfolding_all rfl) (by decide)
  obtain ⟨e4, he4, -, -⟩ :=
    calculateDerivedFields_ok_impl now NavigatorAPIServiceImplicit.sample4 1743379200000
      (by decide) (by with_unfolding_all rfl) (by decide)
  obtain ⟨e5, he5, -, -⟩ :=
    calculateDerivedFields_ok_impl now NavigatorAPIServiceImplicit.sample5 1827532800000
      (by decide) (by with_unfolding_all rfl) (by decide)
  refine ⟨[e1, e2, e3, e4, e5], ?_, rfl⟩
  unfold NavigatorAPIServiceImplicit.getSampleAgreements NavigatorAPIServiceImplicit.sampleData
  simp only [mapExcept, he1, he2, he3, he4, he5]

/- ## Claim theorems -/

/-- C1.  For every sequence of canonical agreements, `detectConflicts` emits
exactly the records described by the specification: one record per ordered
pair `i < j` (in loop order) whose territory and product intersections are
both non-empty and where at least one side is `Exclusive`; the record's
severity is `High` iff both sides are `Exclusive` (`Medium` otherwise) and
its `overlappingTerritories` / `overlappingProducts` are exactly the
element-wise intersections.  `conflictSpecRecord` transcribes the claim's
wording; the theorem equates the source loop with it on every input. -/
theorem detectConflicts_pairwise_spec (as : List EnrichedAgreement) :
    detectConflicts as = (allPairs as).filterMap (fun p => conflictSpecRecord p.1 p.2) := by
  induction as with
  | nil => rfl
  | cons a rest ih =>
    rw [detectConflicts, allPairs, List.filterMap_append, ih, List.filterMap_map]
    congr 1
    have hcomp :
        ((fun p : EnrichedAgreement × EnrichedAgreement => conflictSpecRecord p.1 p.2) ∘
          fun b => (a, b)) = fun b => conflictSpecRecord a b := rfl
    rw [hcomp]
    congr 1
    exact funext (fun b => pairConflict_eq_spec a b)

/-- Baseline canonical agreement used by the concrete examples (every field
at its documented default, no scope, performance 0). -/
def blankProcessed : ProcessedAgreement :=
  { id := .undef, navigatorId := .undef, navigatorUrl := .undef, title := .undef,
    executionDate := .undef, effectiveDate := .undef, expirationDate := .undef,
    status := .str "Active", distributorLegalName := .str "", lineOfBusiness := .str "",
    initialTermLength := .str "", territoryCountries := [], productCategories := [],
    customerSegmentRestrictions := .str "", exclusivityStatus := .str "Non-Exclusive",
    performanceBasedExclusivity := .str "No", exclusivityConversionTrigger := .str "",
    commitmentCurrency := .str "USD", discountMRI_CT := none, discountUltrasound := none,
    discountPatientMonitoring := none, softwareRevenueShare := none, priceCapIncrease := none,
    annualMinimums := .arr [], minimumPerformanceThreshold := 85, currentPerformance := 0,
    nonRenewalNoticeDays := 90, departmentsImpacted := .str "", lastSyncedFromNavigator := .undef }

/-- The claim's worked example: performance 78 against threshold 85, not
conditionally exclusive. -/
def exampleC2 : ProcessedAgreement :=
  { blankProcessed with currentPerformance := 78, minimumPerformanceThreshold := 85 }

/-- C2.  The risk score is the tier map applied to the sum of the three
independent point rules (performance shortfall, deadline proximity,
conditional-exclusivity penalty), with tiers total ≥ 5 High, ≥ 2 Medium,
else Low; and the worked example (78 against 85, 45 days, no conditional
exclusivity) totals 4 points and lands on Medium. -/
theorem calculateRiskScore_spec :
    (∀ (a : ProcessedAgreement) (d : Int),
      calculateRiskScore a d =
        riskTierOf (perfPoints a.currentPerformance a.minimumPerformanceThreshold +
          deadlinePoints d + condExclPoints a.exclusivityStatus a.currentPerformance)) ∧
    perfPoints 78 85 + deadlinePoints 45 + condExclPoints (.str "Non-Exclusive") 78 = 4 ∧
    calculateRiskScore exampleC2 45 = "Medium" := by
  refine ⟨fun a d => ?_, by decide, by decide⟩
  unfold calculateRiskScore riskTierOf perfPoints deadlinePoints condExclPoints
  dsimp only
  have hc1 : (d ≤ 30 ∧ d > 0) ↔ (0 < d ∧ d ≤ 30) := by
    constructor <;> exact fun h => ⟨h.2, h.1⟩
  have hc2 : (d ≤ 90 ∧ d > 0) ↔ (0 < d ∧ d ≤ 90) := by
    constructor <;> exact fun h => ⟨h.2, h.1⟩
  simp only [hc1, hc2, ge_iff_le]

/-- C3.  Renewal urgency is `Urgent` exactly on `(0, 30]`, `Warning` exactly
on `(0, 90]` outside `(0, 30]`, and `On Track` in all other cases —
including every non-positive `daysUntilDeadline` (a passed deadline is never
escalated) and everything beyond 90; both `calculateDerivedFields`
implementations set the field to this classification of the record's own
`daysUntilDeadline`; and the boundary examples 30, 31, 90, 91, 0, −17
land as the claim states. -/
theorem renewalUrgency_spec :
    (∀ d : Int,
      (renewalUrgencyOf d = "Urgent" ↔ 0 < d ∧ d ≤ 30) ∧
      (renewalUrgencyOf d = "Warning" ↔ (0 < d ∧ d ≤ 90) ∧ ¬ (0 < d ∧ d ≤ 30)) ∧
      (renewalUrgencyOf d = "On Track" ↔ d ≤ 0 ∨ 90 < d)) ∧
    (∀ (now : Int) (a : ProcessedAgreement),
      (NavigatorAPIServicePKCE.calculateDerivedFields now a).map (fun e => e.renewalUrgency) =
        (NavigatorAPIServicePKCE.calculateDerivedFields now a).map
          (fun e => renewalUrgencyOf e.daysUntilDeadline)) ∧
    (∀ (now : Int) (a : ProcessedAgreement),
      (NavigatorAPIServiceImplicit.calculateDerivedFields now a).map (fun e => e.renewalUrgency) =
        (NavigatorAPIServiceImplicit.calculateDerivedFields now a).map
          (fun e => renewalUrgencyOf e.daysUntilDeadline)) ∧
    renewalUrgencyOf 30 = "Urgent" ∧ renewalUrgencyOf 31 = "Warning" ∧
    renewalUrgencyOf 90 = "Warning" ∧ renewalUrgencyOf 91 = "On Track" ∧
    renewalUrgencyOf 0 = "On Track" ∧ renewalUrgencyOf (-17) = "On Track" := by
  have hUW : ("Urgent" : String) ≠ "Warning" := by decide
  have hUO : ("Urgent" : String) ≠ "On Track" := by decide
  have hWO : ("Warning" : String) ≠ "On Track" := by decide
  refine ⟨fun d => ⟨?_, ?_, ?_⟩, fun now a => ?_, fun now a => ?_,
    by decide, by decide, by decide, by decide, by decide, by decide⟩
  · unfold renewalUrgencyOf
    split_ifs with h1 h2 <;> simp_all <;> omega
  · unfold renewalUrgencyOf
    split_ifs with h1 h2 <;> simp_all <;> omega
  · unfold renewalUrgencyOf
    split_ifs with h1 h2 <;> simp_all <;> omega
  · unfold NavigatorAPIServicePKCE.calculateDerivedFields
    cases hd : dateParse a.expirationDate with
    | none => rfl
    | some expMs =>
      dsimp only
      by_cases hcl : inTimeRange (computeDeadlineMs expMs a.nonRenewalNoticeDays) = true
      · rw [if_neg (by simp [hcl])]
        cases hf : findYearCommitment a.annualMinimums ((civilFromDays (now / msPerDay)).1) with
        | error e => rfl
        | ok c => rfl
      · rw [if_pos (by simp [hcl])]
        rfl
  · unfold NavigatorAPIServiceImplicit.calculateDerivedFields
    cases hd : dateParse a.expirationDate with
    | none => rfl
    | some expMs =>
      dsimp only
      by_cases hcl : inTimeRange (computeDeadlineMs expMs a.nonRenewalNoticeDays) = true
      · rw [if_neg (by simp [hcl])]
        cases hf : findYearCommitment a.annualMinimums ((civilFromDays (now / msPerDay)).1) with
        | error e => rfl
        | ok c => rfl
      · rw [if_pos (by simp [hcl])]
        rfl

/-- The claim's worked example for the deadline computation: expiration
2025-01-15, 31 notice days. -/
def exampleC4 : ProcessedAgreement :=
  { blankProcessed with expirationDate := .str "2025-01-15", nonRenewalNoticeDays := 31 }

/-- C4.  The non-renewal deadline is exact calendar subtraction: for an
expiration date with day number `daysFromCivil y m d` (midnight UTC) and an
integer notice period `dd`, the day number of the computed deadline is
exactly `daysFromCivil y m d - dd` — the `setDate` renormalization carries
correctly across month and year boundaries for every date and every notice
count; and through both full `calculateDerivedFields` implementations the
worked example 2025-01-15 minus 31 days renders as `2024-12-15` for every
evaluation instant. -/
theorem nonRenewalDeadline_calendar_spec :
    (∀ y m d dd : Int,
      computeDeadlineMs (daysFromCivil y m d * msPerDay) ((dd : Int) : ℚ) / msPerDay =
        daysFromCivil y m d - dd) ∧
    (∀ now : Int,
      (NavigatorAPIServiceImplicit.calculateDerivedFields now exampleC4).map
        (fun e => e.nonRenewalDeadline) = Except.ok "2024-12-15") ∧
    (∀ now : Int,
      (NavigatorAPIServicePKCE.calculateDerivedFields now exampleC4).map
        (fun e => e.nonRenewalDeadline) = Except.ok "2024-12-15") := by
  have hK : (msPerDay : Int) ≠ 0 := by decide
  have hd : dateParse exampleC4.expirationDate = some 1736899200000 := by decide
  have hf : ∀ cy : Int, findYearCommitment exampleC4.annualMinimums cy = .ok (.num 0) :=
    fun cy => rfl
  have hcl : inTimeRange (computeDeadlineMs 1736899200000 exampleC4.nonRenewalNoticeDays) = true := by
    with_unfolding_all rfl
  refine ⟨fun y m d dd => ?_, fun now => ?_, fun now => ?_⟩
  case refine_2 =>
    unfold NavigatorAPIServiceImplicit.calculateDerivedFields
    rw [hd]
    dsimp only
    rw [if_neg (not_not_intro hcl)]
    rw [hf]
    dsimp only [Except.map]
    simp only [Except.ok.injEq]
    with_unfolding_all rfl
  case refine_3 =>
    unfold NavigatorAPIServicePKCE.calculateDerivedFields
    rw [hd]
    dsimp only
    rw [if_neg (not_not_intro hcl)]
    rw [hf]
    dsimp only [Except.map]
    simp only [Except.ok.injEq]
    with_unfolding_all rfl
  unfold computeDeadlineMs
  dsimp only
  rw [Int.mul_ediv_cancel _ hK]
  have htod : daysFromCivil y m d * msPerDay - daysFromCivil y m d * msPerDay = 0 := by ring
  rw [htod]
  have hrec : daysFromCivil (civilFromDays (daysFromCivil y m d)).1
      (civilFromDays (daysFromCivil y m d)).2.1 1 +
      (civilFromDays (daysFromCivil y m d)).2.2 - 1 = daysFromCivil y m d := by
    have h1 := daysFromCivil_civilFromDays (daysFromCivil y m d)
    have h2 := daysFromCivil_day_shift (civilFromDays (daysFromCivil y m d)).1
      (civilFromDays (daysFromCivil y m d)).2.1 1 ((civilFromDays (daysFromCivil y m d)).2.2 - 1)
    have h3 : 1 + ((civilFromDays (daysFromCivil y m d)).2.2 - 1) =
        (civilFromDays (daysFromCivil y m d)).2.2 := by ring
    rw [h3] at h2
    omega
  have hcast : ((((civilFromDays (daysFromCivil y m d)).2.2 : Int) : ℚ) - ((dd : Int) : ℚ)) =
      ((((civilFromDays (daysFromCivil y m d)).2.2 - dd : Int)) : ℚ) := by
    push_cast
    ring
  rw [hcast, ratTrunc_intCast]
  have hstep : daysFromCivil (civilFromDays (daysFromCivil y m d)).1
      (civilFromDays (daysFromCivil y m d)).2.1 1 +
      ((civilFromDays (daysFromCivil y m d)).2.2 - dd) - 1 = daysFromCivil y m d - dd := by
    omega
  rw [hstep, add_zero, Int.mul_ediv_cancel _ hK]

/-- C5 (counterexample).  The claim says the string fallback splits on the
three delimiters comma, semicolon and pipe; the PKCE variant's regex is
`/[,;]/`, so a pipe-separated string stays in one piece instead of being
split into two. -/
theorem parseMultiValue_pipe_counterexample :
    NavigatorAPIServicePKCE.parseMultiValue (.str "Germany|Austria") =
      [.str "Germany|Austria"] ∧
    NavigatorAPIServicePKCE.parseMultiValue (.str "Germany|Austria") ≠
      [.str "Germany", .str "Austria"] := by
  refine ⟨rfl, fun h => ?_⟩
  rw [show NavigatorAPIServicePKCE.parseMultiValue (.str "Germany|Austria") =
      [.str "Germany|Austria"] from rfl] at h
  have hl := congrArg List.length h
  simp at hl

/-- C5 (amended).  Multi-value parsing: a sequence is returned as-is; a
string is first attempted as a JSON array and on JSON parse failure is
delimiter-split with each token trimmed and empty tokens dropped — on comma
and semicolon in the PKCE service variant, and on comma, semicolon and pipe
in the implicit-grant variant; any non-sequence, non-string input yields the
empty sequence; `"Germany, Austria;  France"` yields the three country
tokens in both variants and the malformed JSON-looking `"[abc"` falls back
to the delimiter split rather than raising. -/
theorem parseMultiValue_amended_spec :
    (∀ xs : List JSValue,
      NavigatorAPIServicePKCE.parseMultiValue (.arr xs) = xs ∧
      NavigatorAPIServiceImplicit.parseMultiValue (.arr xs) = xs) ∧
    (∀ s : String, jsonParse s = none →
      NavigatorAPIServicePKCE.parseMultiValue (.str s) =
        (splitTokens [',', ';'] s).map JSValue.str ∧
      NavigatorAPIServiceImplicit.parseMultiValue (.str s) =
        (splitTokens [',', ';', '|'] s).map JSValue.str) ∧
    (∀ v : JSValue, isStringOrArr v = false →
      NavigatorAPIServicePKCE.parseMultiValue v = [] ∧
      NavigatorAPIServiceImplicit.parseMultiValue v = []) ∧
    NavigatorAPIServicePKCE.parseMultiValue (.str "Germany, Austria;  France") =
      [.str "Germany", .str "Austria", .str "France"] ∧
    NavigatorAPIServiceImplicit.parseMultiValue (.str "Germany, Austria;  France") =
      [.str "Germany", .str "Austria", .str "France"] ∧
    NavigatorAPIServicePKCE.parseMultiValue (.str "[abc") = [.str "[abc"] ∧
    NavigatorAPIServiceImplicit.parseMultiValue (.str "[abc") = [.str "[abc"] := by
  refine ⟨fun xs => ⟨rfl, rfl⟩, fun s h => ⟨?_, ?_⟩, fun v hv => ?_, rfl, rfl, rfl, rfl⟩
  · simp only [NavigatorAPIServicePKCE.parseMultiValue, h]
  · by_cases hs : s = ""
    · subst hs
      rfl
    · simp only [NavigatorAPIServiceImplicit.parseMultiValue, if_neg hs, h]
  · cases v <;>
      simp_all [isStringOrArr, NavigatorAPIServicePKCE.parseMultiValue,
        NavigatorAPIServiceImplicit.parseMultiValue]

theorem parseMultiValue_amended_witness :
    (NavigatorAPIServicePKCE.parseMultiValue (.str "Germany|Austria") =
        (splitTokens [',', ';'] "Germany|Austria").map JSValue.str ∧
      NavigatorAPIServiceImplicit.parseMultiValue (.str "Germany|Austria") =
        (splitTokens [',', ';', '|'] "Germany|Austria").map JSValue.str) ∧
    (NavigatorAPIServicePKCE.parseMultiValue (.num 5) = [] ∧
      NavigatorAPIServiceImplicit.parseMultiValue (.num 5) = []) :=
  ⟨parseMultiValue_amended_spec.2.1 "Germany|Austria" rfl,
   parseMultiValue_amended_spec.2.2.1 (.num 5) rfl⟩

/-- C6 (counterexample).  The claim says a string that JSON-decodes to a
non-sequence yields the empty sequence; in fact `parseAnnualMinimums`
returns whatever `JSON.parse` produced — for `"42"` the number 42, not an
empty sequence — in both service variants. -/
theorem parseAnnualMinimums_nonarray_counterexample :
    NavigatorAPIServicePKCE.parseAnnualMinimums (.str "42") = .num 42 ∧
    NavigatorAPIServiceImplicit.parseAnnualMinimums (.str "42") = .num 42 ∧
    JSValue.num 42 ≠ .arr [] := by
  refine ⟨by with_unfolding_all rfl, by with_unfolding_all rfl, fun h => JSValue.noConfusion h⟩

/-- C6 (amended).  `annualMinimums` parsing: a sequence is returned
unchanged; a string is parsed as JSON and the decoded value is returned
as-is, whatever its shape (there is no sequence check on the decoded
value); a string that fails to parse, and every non-string non-sequence
input, yields the empty sequence; there is no delimiter-splitting fallback
(the JSON-failure case goes straight to the empty sequence, unlike the
multi-value text fields). -/
theorem parseAnnualMinimums_amended_spec :
    (∀ xs : List JSValue,
      NavigatorAPIServicePKCE.parseAnnualMinimums (.arr xs) = .arr xs ∧
      NavigatorAPIServiceImplicit.parseAnnualMinimums (.arr xs) = .arr xs) ∧
    (∀ (s : String) (v : JSValue), jsonParse s = some v →
      NavigatorAPIServicePKCE.parseAnnualMinimums (.str s) = v ∧
      NavigatorAPIServiceImplicit.parseAnnualMinimums (.str s) = v) ∧
    (∀ s : String, jsonParse s = none →
      NavigatorAPIServicePKCE.parseAnnualMinimums (.str s) = .arr [] ∧
      NavigatorAPIServiceImplicit.parseAnnualMinimums (.str s) = .arr []) ∧
    (∀ v : JSValue, isStringOrArr v = false →
      NavigatorAPIServicePKCE.parseAnnualMinimums v = .arr [] ∧
      NavigatorAPIServiceImplicit.parseAnnualMinimums v = .arr []) := by
  refine ⟨fun xs => ⟨rfl, rfl⟩, fun s v h => ⟨?_, ?_⟩, fun s h => ⟨?_, ?_⟩, fun v hv => ?_⟩
  · simp only [NavigatorAPIServicePKCE.parseAnnualMinimums, h]
  · by_cases hs : s = ""
    · subst hs
      rw [show jsonParse "" = none from rfl] at h
      exact Option.noConfusion h
    · simp only [NavigatorAPIServiceImplicit.parseAnnualMinimums, if_neg hs, h]
  · simp only [NavigatorAPIServicePKCE.parseAnnualMinimums, h]
  · by_cases hs : s = ""
    · subst hs
      rfl
    · simp only [NavigatorAPIServiceImplicit.parseAnnualMinimums, if_neg hs, h]
  · cases v <;>
      simp_all [isStringOrArr, NavigatorAPIServicePKCE.parseAnnualMinimums,
        NavigatorAPIServiceImplicit.parseAnnualMinimums]

theorem parseAnnualMinimums_amended_witness :
    (NavigatorAPIServicePKCE.parseAnnualMinimums (.str "[]") = .arr [] ∧
      NavigatorAPIServiceImplicit.parseAnnualMinimums (.str "[]") = .arr []) ∧
    (NavigatorAPIServicePKCE.parseAnnualMinimums (.str "\x7b") = .arr [] ∧
      NavigatorAPIServiceImplicit.parseAnnualMinimums (.str "\x7b") = .arr []) ∧
    (NavigatorAPIServicePKCE.parseAnnualMinimums (.bool true) = .arr [] ∧
      NavigatorAPIServiceImplicit.parseAnnualMinimums (.bool true) = .arr []) :=
  ⟨parseAnnualMinimums_amended_spec.2.1 "[]" (.arr []) rfl,
   parseAnnualMinimums_amended_spec.2.2.1 "\x7b" rfl,
   parseAnnualMinimums_amended_spec.2.2.2 (.bool true) rfl⟩

/-- C8.  Whenever the caller is authenticated but the upstream list fetch
fails — a rejected request or a non-OK response —, the sync does not fail:
the pipeline runs the fixed five-record demo dataset through the
derived-field computation and conflict detection and returns a successful
`SyncResult` (success, count 5, the demo conflict count, no error, no cache
fallback) instead of surfacing the fetch failure. -/
theorem syncAgreements_fallback_spec (now : Int) (details : JSValue → Option JSValue)
    (cacheAvailable : Bool) (fetch : FetchOutcome)
    (hfail : fetch = .networkFailure ∨ ∃ st, fetch = .apiError st) :
    ∃ ags, NavigatorAPIServiceImplicit.getSampleAgreements now = .ok ags ∧ ags.length = 5 ∧
      NavigatorAPIServiceImplicit.syncAgreements true fetch details now cacheAvailable =
        { success := true, count := 5, conflicts := (detectConflicts ags).length,
          error := none, usingCache := false } := by
  obtain ⟨ags, hags, hlen⟩ := getSampleAgreements_ok now
  refine ⟨ags, hags, hlen, ?_⟩
  unfold NavigatorAPIServiceImplicit.syncAgreements NavigatorAPIServiceImplicit.getAllAgreements
  rcases hfail with h | ⟨st, h⟩ <;> subst h <;> simp [hags, hlen]

theorem syncAgreements_fallback_witness :
    ∃ ags, NavigatorAPIServiceImplicit.getSampleAgreements 0 = .ok ags ∧ ags.length = 5 ∧
      NavigatorAPIServiceImplicit.syncAgreements true .networkFailure (fun _ => none) 0 false =
        { success := true, count := 5, conflicts := (detectConflicts ags).length,
          error := none, usingCache := false } :=
  syncAgreements_fallback_spec 0 (fun _ => none) false .networkFailure (Or.inl rfl)

/-- C10.  A string input whose JSON parse succeeds with a non-array value is
returned by the multi-value parser as the one-element sequence holding the
original unparsed string itself — not the decoded value, not a delimiter
split, and not the empty sequence — in both service variants; in particular
`"42"` and `"\"Germany\""`. -/
theorem parseMultiValue_jsonScalar_spec :
    (∀ (s : String) (v : JSValue), jsonParse s = some v → isArr v = false →
      NavigatorAPIServicePKCE.parseMultiValue (.str s) = [.str s] ∧
      NavigatorAPIServiceImplicit.parseMultiValue (.str s) = [.str s]) ∧
    NavigatorAPIServicePKCE.parseMultiValue (.str "42") = [.str "42"] ∧
    NavigatorAPIServiceImplicit.parseMultiValue (.str "42") = [.str "42"] ∧
    NavigatorAPIServicePKCE.parseMultiValue (.str "\"Germany\"") = [.str "\"Germany\""] ∧
    NavigatorAPIServiceImplicit.parseMultiValue (.str "\"Germany\"") = [.str "\"Germany\""] := by
  refine ⟨fun s v h hv => ⟨?_, ?_⟩, by with_unfolding_all rfl, by with_unfolding_all rfl,
    rfl, rfl⟩
  · simp only [NavigatorAPIServicePKCE.parseMultiValue, h]
    cases v <;> simp_all [isArr]
  · by_cases hs : s = ""
    · subst hs
      rw [show jsonParse "" = none from rfl] at h
      exact Option.noConfusion h
    · simp only [NavigatorAPIServiceImplicit.parseMultiValue, if_neg hs, h]
      cases v <;> simp_all [isArr]

theorem parseMultiValue_jsonScalar_witness :
    NavigatorAPIServicePKCE.parseMultiValue (.str "true") = [.str "true"] ∧
    NavigatorAPIServiceImplicit.parseMultiValue (.str "true") = [.str "true"] :=
  parseMultiValue_jsonScalar_spec.1 "true" (.bool true) rfl rfl
